import Mathlib

/-!
Shallow embedding of the booking, policy, billing and availability core of
the patricia-voice-studio backend (Express + SQLite, TypeScript sources in
backend/src). Each definition mirrors one source function or SQL statement;
the mapping is noted in the doc comments.
-/

namespace PVS

/-- Model of a JavaScript Date value (valid dates only; the studio runs in a
single fixed zone, so we treat the wall-clock fields as absolute).
`month` is 0-based exactly like `Date.prototype.getMonth`, `day` is 1-based
like `getDate`, and `msOfDay` is the time within the day in milliseconds.
An Invalid Date (for example `new Date(undefined)`) is modelled as `none`
at use sites of type `Option JSDate`. -/
structure JSDate where
  year : Int
  month : Int
  day : Int
  msOfDay : Int
deriving DecidableEq, Repr

/-- Days since 1970-01-01 in the proleptic Gregorian calendar (the algorithm
used by JavaScript Date internals); `m` is the 0-based month. -/
def daysFromCivil (y m d : Int) : Int :=
  let y2 := if m ≤ 1 then y - 1 else y
  let era := y2 / 400
  let yoe := y2 - era * 400
  let mp := if 1 < m then m - 2 else m + 10
  let doy := (153 * mp + 2) / 5 + d - 1
  let doe := yoe * 365 + yoe / 4 - yoe / 100 + doy
  era * 146097 + doe - 719468

/-- Model of `Date.prototype.getTime`: milliseconds since the epoch. -/
def getTime (t : JSDate) : Int :=
  daysFromCivil t.year t.month t.day * 86400000 + t.msOfDay

/-- Model of the JS comparison `dateA <= dateB` (dates compare via their
epoch-millisecond value). -/
def jsDateLE (a b : JSDate) : Bool :=
  getTime a ≤ getTime b

/-- Comparison of the date parts only, as the SQL
`? BETWEEN start_date AND end_date` comparison on ISO `YYYY-MM-DD` strings
(string order coincides with lexicographic order on year, month, day). -/
def dateOnlyLE (a b : JSDate) : Bool :=
  a.year < b.year ∨
    (a.year = b.year ∧ (a.month < b.month ∨ (a.month = b.month ∧ a.day ≤ b.day)))

/-- Equality of the date parts, as SQL `DATE(lesson_date) = DATE(?)`. -/
def sameDateOnly (a b : JSDate) : Bool :=
  a.year = b.year ∧ a.month = b.month ∧ a.day = b.day

/-- Model of the middleware comparison
`originalDate.getMonth() === newDate.getMonth() && originalDate.getFullYear() === newDate.getFullYear()`
where `nd` may be an Invalid Date (`none`): every accessor of an Invalid Date
returns NaN and `NaN === x` is false, so the comparison is false. -/
def jsSameMonthYear (orig : JSDate) (nd : Option JSDate) : Bool :=
  match nd with
  | some d => orig.month = d.month ∧ orig.year = d.year
  | none => false

/-- Booking status strings stored in the `bookings.status` column. -/
inductive BStatus where
  | pending
  | confirmed
  | completed
  | cancelled
  | rescheduled
deriving DecidableEq, Repr

/-- Make-up lesson status strings stored in `makeup_lessons.status`. -/
inductive MStatus where
  | pending
  | scheduled
  | completed
  | expired
deriving DecidableEq, Repr

/-- Recurring-commitment frequency strings (`recurring_bookings.frequency`). -/
inductive Freq where
  | weekly
  | biweekly
deriving DecidableEq, Repr

/-- Row of the `bookings` table (scheduling-relevant columns). -/
structure BookingRow where
  id : Nat
  userId : Nat
  lessonDate : JSDate
  duration : Int
  price : ℚ
  status : BStatus
  notes : Option String
  rescheduleCount : Int
  originalDate : Option JSDate
  cancellationReason : Option String
  cancelledAt : Option JSDate
  googleEventId : Option Nat
deriving DecidableEq, Repr

/-- Row of the `payments` table (columns used by the late-cancellation
charge: booking_id, amount, payment_method, status, payment_reference). -/
structure PaymentRow where
  bookingId : Nat
  amount : ℚ
  paymentMethod : String
  status : String
  paymentReference : String
deriving DecidableEq, Repr

/-- Row of the `makeup_lessons` table. -/
structure MakeupRow where
  id : Nat
  userId : Nat
  originalBookingId : Nat
  makeupDate : Option JSDate
  reason : String
  status : MStatus
deriving DecidableEq, Repr

/-- Row of the `recurring_bookings` table. -/
structure RecurringRow where
  id : Nat
  userId : Nat
  duration : Int
  price : ℚ
  dayOfWeek : Int
  timeOfDay : String
  frequency : Freq
  startDate : JSDate
  endDate : JSDate
  lessonType : String
deriving DecidableEq, Repr

/-- Row of the `billing_cycles` table. -/
structure CycleRow where
  userId : Nat
  recurringBookingId : Nat
  cycleMonth : Int
  cycleYear : Int
  totalAmount : ℚ
  lessonsCount : Int
  billingDate : JSDate
  dueDate : JSDate
deriving DecidableEq, Repr

/-- Row of the `blackout_dates` table. -/
structure BlackoutRow where
  startDate : JSDate
  endDate : JSDate
  reason : String
  isActive : Bool
deriving DecidableEq, Repr

/-- Row of the `calendar_sync_log` table. -/
structure SyncLogRow where
  action : String
  bookingId : Nat
  googleEventId : Option Nat
  status : String
  errorMessage : Option String
deriving DecidableEq, Repr

/-- The SQLite store, one list per table. -/
structure DB where
  bookings : List BookingRow
  payments : List PaymentRow
  makeupLessons : List MakeupRow
  recurringBookings : List RecurringRow
  billingCycles : List CycleRow
  blackoutDates : List BlackoutRow
  calendarSyncLog : List SyncLogRow
deriving DecidableEq, Repr

/-- Rows of the `settings` table, already parsed; `none` models a missing
row, resolved at each use site with the same default the code hardcodes
(for example `parseInt(policySetting?.value || '24')`). Prices are the
`lesson_<duration>_price` rows viewed as a partial map, and business hours
are in minutes from midnight (`'09:00'` is 540). -/
structure Settings where
  cancellationPolicyHours : Option Int
  maxReschedulesPerMonth : Option Int
  maxPendingMakeups : Option Int
  businessHoursStart : Option Int
  businessHoursEnd : Option Int
  lessonPrice : Int → Option ℚ
  academicYearEnd : Option JSDate

/-- Request body of the booking routes; fields absent from the JSON body are
`none` (in JS they read as `undefined`, which is falsy and parses to an
Invalid Date). -/
structure ReqBody where
  lesson_date : Option JSDate
  new_date : Option JSDate
  duration : Option Int
  notes : Option String
deriving DecidableEq, Repr

/-- The JS expression `new_date || lesson_date` on possibly-absent fields. -/
def jsOr (a b : Option JSDate) : Option JSDate :=
  match a with
  | some d => some d
  | none => b

/-- SQL lookup `SELECT * FROM bookings WHERE id = ? AND user_id = ?`. -/
def findBooking (db : DB) (id u : Nat) : Option BookingRow :=
  db.bookings.find? (fun b => b.id = id ∧ b.userId = u)

/-- SQL lookup `SELECT * FROM bookings WHERE id = ?` (no user filter), as
used by `enforceCancellationCharging`. -/
def findBookingAnyUser (db : DB) (id : Nat) : Option BookingRow :=
  db.bookings.find? (fun b => b.id = id)

/-- SQL `UPDATE bookings SET ... WHERE id = ?`. -/
def updateBooking (db : DB) (id : Nat) (f : BookingRow → BookingRow) : DB :=
  { db with bookings := db.bookings.map (fun b => if b.id = id then f b else b) }

/-- Fresh AUTOINCREMENT id for an insert into `bookings`. -/
def nextBookingId (db : DB) : Nat :=
  db.bookings.foldl (fun a b => max a b.id) 0 + 1

/-- Fresh AUTOINCREMENT id for an insert into `makeup_lessons`. -/
def nextMakeupId (db : DB) : Nat :=
  db.makeupLessons.foldl (fun a m => max a m.id) 0 + 1

/-- Fresh AUTOINCREMENT id for an insert into `recurring_bookings`. -/
def nextRecurringId (db : DB) : Nat :=
  db.recurringBookings.foldl (fun a r => max a r.id) 0 + 1

/-! ## Policy middleware (backend/src/middleware/policies.ts) -/

/-- Hours between now and the lesson, from `checkCancellationPolicy`:
`(bookingDate.getTime() - now.getTime()) / (1000 * 60 * 60)` (JS number
division, exact on these magnitudes, modelled in ℚ). -/
def hoursUntilLesson (lessonDate now : JSDate) : ℚ :=
  ((getTime lessonDate - getTime now : Int) : ℚ) / (1000 * 60 * 60)

/-- The parsed `cancellation_policy_hours` setting with the hardcoded
fallback: `parseInt(policySetting?.value || '24')`. -/
def policyHoursOf (s : Settings) : Int :=
  s.cancellationPolicyHours.getD 24

/-- The `checkCancellationPolicy` verdict:
`hoursUntilLesson >= policyHours`. -/
def cancellationAllowed (s : Settings) (lessonDate now : JSDate) : Bool :=
  (policyHoursOf s : ℚ) ≤ hoursUntilLesson lessonDate now

/-- The parsed `max_reschedules_per_month` setting with fallback 2. -/
def maxReschedulesOf (s : Settings) : Int :=
  s.maxReschedulesPerMonth.getD 2

/-- The parsed `max_pending_makeups` setting with fallback 2. -/
def maxPendingMakeupsOf (s : Settings) : Int :=
  s.maxPendingMakeups.getD 2

/-- The reschedule-quota count from `checkReschedulePolicy`:
`SELECT COUNT(*) FROM bookings WHERE user_id = ? AND reschedule_count > 0
AND strftime(month, lesson_date) = ? AND strftime(year, lesson_date) = ?`,
keyed on the month and year of the original booking date. -/
def rescheduleCountInMonth (db : DB) (u : Nat) (orig : JSDate) : Nat :=
  (db.bookings.filter (fun b =>
    b.userId = u ∧ b.rescheduleCount > 0 ∧
    b.lessonDate.month = orig.month ∧ b.lessonDate.year = orig.year)).length

/-- The pending make-up count from `checkMakeupPolicy`:
`SELECT COUNT(*) FROM makeup_lessons WHERE user_id = ? AND status = 'pending'`. -/
def pendingMakeupCount (db : DB) (u : Nat) : Nat :=
  (db.makeupLessons.filter (fun m => m.userId = u ∧ m.status = MStatus.pending)).length

/-- The `checkBlackoutDates` lookup: with `dateToCheck = new_date || lesson_date`
(absent fields pass the check via `next()`), find an active blackout row with
`? BETWEEN start_date AND end_date` on the date part. -/
def blackoutHit (db : DB) (dateToCheck : Option JSDate) : Option BlackoutRow :=
  match dateToCheck with
  | none => none
  | some d =>
    db.blackoutDates.find? (fun bl =>
      bl.isActive ∧ dateOnlyLE bl.startDate d ∧ dateOnlyLE d bl.endDate)

/-! ## Booking routes (backend/src/routes/bookings.ts) -/

/-- Conflict check of the create route:
`SELECT id FROM bookings WHERE lesson_date = ? AND status NOT IN ('cancelled', 'completed')`. -/
def conflictExists (bs : List BookingRow) (t : JSDate) : Bool :=
  bs.any (fun b => b.lessonDate = t ∧ ¬(b.status = BStatus.cancelled ∨ b.status = BStatus.completed))

/-- Conflict check of the reschedule route, which additionally excludes the
booking being moved (`AND id != ?`). -/
def conflictExistsExcept (bs : List BookingRow) (t : JSDate) (id : Nat) : Bool :=
  bs.any (fun b => b.lessonDate = t ∧ ¬(b.status = BStatus.cancelled ∨ b.status = BStatus.completed) ∧ b.id ≠ id)

/-- Outcome of the Google Calendar side call, which the routes treat as
fallible: sync disabled, event call succeeded, call returned a failure
value, or the client threw (network error or timeout). -/
inductive CalOutcome where
  | disabled
  | ok (eid : Nat)
  | failedNull
  | threw (msg : String)
deriving DecidableEq, Repr

/-- Calendar push after the create-route insert: on success the booking row
gets the event id and a success row is logged; on failure or a thrown error
only an error row is logged (the catch block swallows the exception). -/
def applyCreateCalendarSync (db : DB) (id : Nat) (cal : CalOutcome) : DB :=
  match cal with
  | .disabled => db
  | .ok eid =>
    let db1 := updateBooking db id (fun b => { b with googleEventId := some eid })
    { db1 with calendarSyncLog := db1.calendarSyncLog ++
        [⟨"create", id, some eid, "success", none⟩] }
  | .failedNull =>
    { db with calendarSyncLog := db.calendarSyncLog ++
        [⟨"create", id, none, "error", some "Failed to create Google Calendar event"⟩] }
  | .threw msg =>
    { db with calendarSyncLog := db.calendarSyncLog ++
        [⟨"create", id, none, "error", some msg⟩] }

/-- Calendar update after a reschedule (runs only when the booking already
has an event id); always log-only, never fails the local operation. -/
def applyUpdateCalendarSync (db : DB) (id : Nat) (eventId : Option Nat) (cal : CalOutcome) : DB :=
  match eventId with
  | none => db
  | some eid =>
    match cal with
    | .disabled => db
    | .ok _ =>
      { db with calendarSyncLog := db.calendarSyncLog ++
          [⟨"update", id, some eid, "success", none⟩] }
    | .failedNull =>
      { db with calendarSyncLog := db.calendarSyncLog ++
          [⟨"update", id, some eid, "error", some "Failed to update Google Calendar event"⟩] }
    | .threw msg =>
      { db with calendarSyncLog := db.calendarSyncLog ++
          [⟨"update", id, some eid, "error", some msg⟩] }

/-- Calendar deletion after a cancellation; same log-only behavior. -/
def applyDeleteCalendarSync (db : DB) (id : Nat) (eventId : Option Nat) (cal : CalOutcome) : DB :=
  match eventId with
  | none => db
  | some eid =>
    match cal with
    | .disabled => db
    | .ok _ =>
      { db with calendarSyncLog := db.calendarSyncLog ++
          [⟨"delete", id, some eid, "success", none⟩] }
    | .failedNull =>
      { db with calendarSyncLog := db.calendarSyncLog ++
          [⟨"delete", id, some eid, "error", some "Failed to delete Google Calendar event"⟩] }
    | .threw msg =>
      { db with calendarSyncLog := db.calendarSyncLog ++
          [⟨"delete", id, some eid, "error", some msg⟩] }

/-- Responses of the create-booking route. -/
inductive CreateResult where
  | blackout
  | missingFields
  | pastDate
  | conflict
  | created (id : Nat)
deriving DecidableEq, Repr

/-- The POST / booking route: checkBlackoutDates middleware, field and
future-date validation, hardcoded pricing
(`duration === 45 ? 70.00 : 85.00`), the conflict SELECT, the INSERT of a
pending row, and the best-effort calendar push. A missing `lesson_date` or
a missing or zero `duration` is JS-falsy and rejected as a missing field. -/
def postBooking (db : DB) (u : Nat) (body : ReqBody) (now : JSDate) (cal : CalOutcome) :
    DB × CreateResult :=
  match blackoutHit db (jsOr body.new_date body.lesson_date) with
  | some _ => (db, .blackout)
  | none =>
    match body.lesson_date, body.duration with
    | some ld, some dv =>
      if dv = 0 then (db, .missingFields)
      else if getTime ld ≤ getTime now then (db, .pastDate)
      else
        let price : ℚ := if dv = 45 then 70 else 85
        if conflictExists db.bookings ld then (db, .conflict)
        else
          let id := nextBookingId db
          let row : BookingRow :=
            ⟨id, u, ld, dv, price, BStatus.pending, body.notes, 0, none, none, none, none⟩
          let db1 := { db with bookings := db.bookings ++ [row] }
          (applyCreateCalendarSync db1 id cal, .created id)
    | _, _ => (db, .missingFields)

/-- Responses of the reschedule route, middleware denials included. -/
inductive RescheduleResult where
  | policyNotFound
  | policyCrossMonth
  | policyQuota
  | blackout
  | missingDate
  | notFound
  | crossMonth
  | conflict
  | rescheduled
deriving DecidableEq, Repr

/-- The PUT /:id reschedule route: checkReschedulePolicy (which parses the
`new_date` body field), checkBlackoutDates, then the handler (which parses
the `lesson_date` body field, re-checks same month, runs the conflict
SELECT excluding the booking itself, and mutates the row in place with
`reschedule_count + 1` and `COALESCE(original_date, old lesson_date)`). -/
def putBooking (db : DB) (s : Settings) (u id : Nat) (body : ReqBody) (cal : CalOutcome) :
    DB × RescheduleResult :=
  match findBooking db id u with
  | none => (db, .policyNotFound)
  | some bk =>
    if ¬ jsSameMonthYear bk.lessonDate body.new_date then (db, .policyCrossMonth)
    else if maxReschedulesOf s ≤ (rescheduleCountInMonth db u bk.lessonDate : Int) then
      (db, .policyQuota)
    else
      match blackoutHit db (jsOr body.new_date body.lesson_date) with
      | some _ => (db, .blackout)
      | none =>
        match body.lesson_date with
        | none => (db, .missingDate)
        | some ld =>
          match findBooking db id u with
          | none => (db, .notFound)
          | some bk2 =>
            if ld.month ≠ bk2.lessonDate.month ∨ ld.year ≠ bk2.lessonDate.year then
              (db, .crossMonth)
            else if conflictExistsExcept db.bookings ld id then (db, .conflict)
            else
              let db1 := updateBooking db id (fun b =>
                { b with lessonDate := ld, notes := body.notes,
                         rescheduleCount := b.rescheduleCount + 1,
                         originalDate := some (b.originalDate.getD b.lessonDate) })
              (applyUpdateCalendarSync db1 id bk2.googleEventId cal, .rescheduled)

/-- Responses of the cancel route, middleware outcomes included. -/
inductive CancelResult where
  | notFound
  | serverError
  | cancelledWithCharge (amount : ℚ)
  | cancelledFree
deriving DecidableEq, Repr

/-- The DELETE /:id cancel route: checkCancellationPolicy computes the
verdict; when free cancellation is denied, enforceCancellationCharging
re-fetches the booking without the user filter, inserts the
late-cancellation payment for the full booking price, marks the booking
cancelled with the fee reason, and responds (the handler and its calendar
deletion never run). Otherwise the handler marks the booking cancelled and
makes the best-effort calendar deletion. -/
def deleteBooking (db : DB) (s : Settings) (u id : Nat) (now : JSDate) (cal : CalOutcome) :
    DB × CancelResult :=
  match findBooking db id u with
  | none => (db, .notFound)
  | some bk =>
    if cancellationAllowed s bk.lessonDate now then
      match findBooking db id u with
      | none => (db, .notFound)
      | some bk3 =>
        let db1 := updateBooking db id (fun b =>
          { b with status := BStatus.cancelled, cancelledAt := some now })
        (applyDeleteCalendarSync db1 id bk3.googleEventId cal, .cancelledFree)
    else
      match findBookingAnyUser db id with
      | none => (db, .serverError)
      | some bk2 =>
        let pay : PaymentRow :=
          ⟨id, bk2.price, "automatic_charge", "pending", "late_cancellation_fee"⟩
        let db1 := { db with payments := db.payments ++ [pay] }
        let db2 := updateBooking db1 id (fun b =>
          { b with status := BStatus.cancelled,
                   cancellationReason := some "Late cancellation - automatic charge applied",
                   cancelledAt := some now })
        (db2, .cancelledWithCharge bk2.price)

/-! ## Make-up lesson routes (makeup part of backend routes) -/

/-- Eligibility lookup of the make-up request route:
`SELECT * FROM bookings WHERE id = ? AND user_id = ? AND status IN ('confirmed', 'cancelled')`;
a missing `original_booking_id` body field matches nothing. -/
def findEligibleBooking (db : DB) (obid : Option Nat) (u : Nat) : Option BookingRow :=
  match obid with
  | none => none
  | some oid =>
    db.bookings.find? (fun b =>
      b.id = oid ∧ b.userId = u ∧
      (b.status = BStatus.confirmed ∨ b.status = BStatus.cancelled))

/-- Responses of the make-up request route. -/
inductive MakeupResult where
  | policyDenied
  | notEligible
  | capDenied
  | created (id : Nat)
deriving DecidableEq, Repr

/-- The POST make-up request route: checkMakeupPolicy denies once the
pending count reaches `max_pending_makeups`; the handler then checks the
original booking is eligible, re-checks the cap, and inserts a row whose
status takes the schema default `'pending'`. -/
def postMakeup (db : DB) (s : Settings) (u : Nat) (obid : Option Nat) (reason : String) :
    DB × MakeupResult :=
  if maxPendingMakeupsOf s ≤ (pendingMakeupCount db u : Int) then (db, .policyDenied)
  else
    match findEligibleBooking db obid u with
    | none => (db, .notEligible)
    | some bk =>
      if maxPendingMakeupsOf s ≤ (pendingMakeupCount db u : Int) then (db, .capDenied)
      else
        let mid := nextMakeupId db
        ({ db with makeupLessons := db.makeupLessons ++
            [⟨mid, u, bk.id, none, reason, MStatus.pending⟩] }, .created mid)

/-- The admin PUT /:id/schedule route on make-up lessons:
`UPDATE makeup_lessons SET makeup_date = ?, status = 'scheduled' WHERE id = ?`,
the transition that takes a request out of `pending`. -/
def scheduleMakeup (db : DB) (mid : Nat) (mdate : Option JSDate) : DB :=
  { db with makeupLessons := db.makeupLessons.map (fun m =>
      if m.id = mid then { m with makeupDate := mdate, status := MStatus.scheduled } else m) }

/-! ## Recurring commitments and billing cycles (recurring routes) -/

/-- Month index used to compare first-of-month walk positions; the source
loop condition `currentDate <= end` compares the Date that is the first of
the current month with the end date, which for a well-formed end date
(month in 0..11, day at least 1) holds exactly when the month index of the
current month is at most the month index of the end month. -/
def monthIndex (y m : Int) : Int :=
  y * 12 + m

/-- The `generateBillingCycles` while loop: walking month by month from the
first of the start month while `currentDate <= end`, inserting one cycle
per month with `cycle_month` 1-based, `total_amount = price * lessonsPerMonth`,
billing date the 1st and due date the 15th of the month. -/
def genCyclesFrom (u rb : Nat) (price : ℚ) (lessonsPerMonth : Int) (y m : Int) (endD : JSDate) :
    List CycleRow :=
  if h : monthIndex y m ≤ monthIndex endD.year endD.month then
    (⟨u, rb, m + 1, y, price * lessonsPerMonth, lessonsPerMonth,
       ⟨y, m, 1, 0⟩, ⟨y, m, 15, 0⟩⟩ : CycleRow) ::
      (if m = 11 then genCyclesFrom u rb price lessonsPerMonth (y + 1) 0 endD
       else genCyclesFrom u rb price lessonsPerMonth y (m + 1) endD)
  else []
termination_by (monthIndex endD.year endD.month + 1 - monthIndex y m).toNat
decreasing_by
  · simp only [monthIndex] at *
    omega
  · simp only [monthIndex] at *
    omega

/-- The `generateBillingCycles` helper: `lessonsPerMonth` is 4 for weekly
and 2 otherwise (`frequency === 'weekly' ? 4 : 2`), the monthly amount is
`lessonPrice * lessonsPerMonth`, and the walk starts at the first of the
start month. -/
def generateBillingCycles (u rb : Nat) (price : ℚ) (frequency : Freq) (startD endD : JSDate) :
    List CycleRow :=
  let lessonsPerMonth : Int := if frequency = Freq.weekly then 4 else 2
  genCyclesFrom u rb price lessonsPerMonth startD.year startD.month endD

/-- Request body of the recurring-commitment creation route. -/
structure RecurringBody where
  duration : Int
  day_of_week : Int
  timeOfDay : String
  frequency : Freq
  start_date : JSDate
  lesson_type : String
deriving Repr

/-- Responses of the recurring-commitment creation route. -/
inductive RecurringResult where
  | invalidDuration
  | serverError
  | created (id : Nat)
deriving DecidableEq, Repr

/-- The POST recurring route: the `lesson_<duration>_price` settings lookup
is rejected with 400 before anything is written; otherwise the commitment
row is inserted and `generateBillingCycles` runs as a sequence of separate
autocommitted INSERT statements (no transaction). `failAt = some k` models
the k-th cycle INSERT throwing: the first k cycles stay committed, the
exception reaches the route catch block, and a 500 is returned with the
commitment and those k cycles already durable. -/
def postRecurring (db : DB) (s : Settings) (u : Nat) (body : RecurringBody)
    (failAt : Option Nat) : DB × RecurringResult :=
  match s.lessonPrice body.duration with
  | none => (db, .invalidDuration)
  | some price =>
    let endD := s.academicYearEnd.getD ⟨2026, 5, 30, 0⟩
    let id := nextRecurringId db
    let row : RecurringRow :=
      ⟨id, u, body.duration, price, body.day_of_week, body.timeOfDay,
       body.frequency, body.start_date, endD, body.lesson_type⟩
    let db1 := { db with recurringBookings := db.recurringBookings ++ [row] }
    let cycles := generateBillingCycles u id price body.frequency body.start_date endD
    match failAt with
    | some k =>
      if k < cycles.length then
        ({ db1 with billingCycles := db1.billingCycles ++ cycles.take k }, .serverError)
      else
        ({ db1 with billingCycles := db1.billingCycles ++ cycles }, .created id)
    | none =>
      ({ db1 with billingCycles := db1.billingCycles ++ cycles }, .created id)

/-! ## Step-level view of booking creation (concurrency of POST /) -/

/-- Input of one create-booking operation, restricted to the columns the
conflict check and INSERT read. -/
structure CreateReq where
  userId : Nat
  lessonDate : JSDate
  duration : Int
  notes : Option String
deriving DecidableEq, Repr

/-- Progress of one create operation through its two store accesses: the
conflict SELECT and the INSERT are separate statements with no transaction
or uniqueness constraint around them (the `bookings` schema has no UNIQUE
on `lesson_date`), so another operation can run between them. -/
inductive CreatePhase where
  | ready
  | checked
  | succeeded
  | conflicted
deriving DecidableEq, Repr

/-- One store access of a create operation: from `ready` it runs the
conflict SELECT (`conflictExists`), from `checked` it runs the INSERT of
the pending row; terminal phases do nothing. -/
def createStep (bs : List BookingRow) (r : CreateReq) (ph : CreatePhase) :
    List BookingRow × CreatePhase :=
  match ph with
  | .ready => if conflictExists bs r.lessonDate then (bs, .conflicted) else (bs, .checked)
  | .checked =>
    let id := bs.foldl (fun a b => max a b.id) 0 + 1
    let price : ℚ := if r.duration = 45 then 70 else 85
    (bs ++ [⟨id, r.userId, r.lessonDate, r.duration, price, BStatus.pending,
            r.notes, 0, none, none, none, none⟩], .succeeded)
  | ph => (bs, ph)

/-- Run two create operations under a schedule: `false` gives the next
store access to the first operation, `true` to the second. -/
def runTwo (bs : List BookingRow) (r1 r2 : CreateReq) (ph1 ph2 : CreatePhase) :
    List Bool → List BookingRow × CreatePhase × CreatePhase
  | [] => (bs, ph1, ph2)
  | b :: rest =>
    if b then
      let (bs2, ph2b) := createStep bs r2 ph2
      runTwo bs2 r1 r2 ph1 ph2b rest
    else
      let (bs2, ph1b) := createStep bs r1 ph1
      runTwo bs2 r1 r2 ph1b ph2 rest

/-- Number of rows holding the timestamp in a non-terminal status, the
quantity the no-double-booking invariant bounds by one. -/
def nonTerminalCountAt (bs : List BookingRow) (t : JSDate) : Nat :=
  (bs.filter (fun b =>
    b.lessonDate = t ∧ ¬(b.status = BStatus.cancelled ∨ b.status = BStatus.completed))).length

/-! ## Availability resolver (googleCalendar.ts getAvailableSlots) -/

/-- One candidate slot; `stop` renders the source field `end` (a Lean
keyword). Times are epoch milliseconds, as the source compares Date
values. -/
structure Slot where
  start : Int
  stop : Int
  available : Bool
deriving DecidableEq, Repr

/-- The slot-generation while loop: from the business-hours day start,
step 30 minutes (`addMinutes(currentTime, 30)`) while `currentTime < dayEnd`,
pushing a slot only when `slotEnd <= dayEnd` (slots that would cross the
business-hours end are never emitted at all). -/
def genSlots (current dayEnd duration : Int) : List Slot :=
  if h : current < dayEnd then
    (if current + duration * 60000 ≤ dayEnd then
      [⟨current, current + duration * 60000, true⟩] else []) ++
      genSlots (current + 30 * 60000) dayEnd duration
  else []
termination_by (dayEnd - current).toNat
decreasing_by
  omega

/-- Strict interval overlap used by both marking loops:
`slotStart < otherEnd && slotEnd > otherStart`. -/
def overlaps (s : Slot) (otherStart otherEnd : Int) : Bool :=
  s.start < otherEnd ∧ otherStart < s.stop

/-- First marking loop: a slot overlapping any externally reported busy
interval becomes unavailable. -/
def markBusy (slots : List Slot) (busy : List (Int × Int)) : List Slot :=
  slots.map (fun s =>
    if busy.any (fun b => overlaps s b.1 b.2) then { s with available := false } else s)

/-- The bookings considered by the second marking loop:
`SELECT lesson_date, duration FROM bookings WHERE DATE(lesson_date) = ? AND status IN ('confirmed', 'pending')`,
each viewed as the interval from its start to `addMinutes(start, duration)`. -/
def bookingIntervalsOn (db : DB) (date : JSDate) : List (Int × Int) :=
  (db.bookings.filter (fun b =>
    sameDateOnly b.lessonDate date ∧
    (b.status = BStatus.confirmed ∨ b.status = BStatus.pending))).map
    (fun b => (getTime b.lessonDate, getTime b.lessonDate + b.duration * 60000))

/-- Second marking loop: slots still available that overlap a confirmed or
pending booking become unavailable (`if (!slot.available) continue`). -/
def markBookings (slots : List Slot) (bookings : List (Int × Int)) : List Slot :=
  slots.map (fun s =>
    if s.available ∧ bookings.any (fun b => overlaps s b.1 b.2) then
      { s with available := false } else s)

/-- Business-hours day start in epoch ms for a date, from the
`business_hours_start` setting (string `'09:00'`, modelled in minutes,
default 540). -/
def dayStartMs (s : Settings) (date : JSDate) : Int :=
  getTime ⟨date.year, date.month, date.day, s.businessHoursStart.getD 540 * 60000⟩

/-- Business-hours day end in epoch ms for a date (default `'18:00'`). -/
def dayEndMs (s : Settings) (date : JSDate) : Int :=
  getTime ⟨date.year, date.month, date.day, s.businessHoursEnd.getD 1080 * 60000⟩

/-- The slot list of `getAvailableSlots` after both marking passes and
before the final filter; the function reads the store and the external
busy intervals and mutates nothing. -/
def markedSlots (db : DB) (s : Settings) (busy : List (Int × Int)) (date : JSDate)
    (duration : Int) : List Slot :=
  markBookings
    (markBusy (genSlots (dayStartMs s date) (dayEndMs s date) duration) busy)
    (bookingIntervalsOn db date)

/-- The value `getAvailableSlots` returns:
`slots.filter(slot => slot.available)`. -/
def getAvailableSlots (db : DB) (s : Settings) (busy : List (Int × Int)) (date : JSDate)
    (duration : Int) : List Slot :=
  (markedSlots db s busy date duration).filter (·.available)

/-! ## Helper lemmas -/

lemma applyCreateCalendarSync_payments (db : DB) (id : Nat) (cal : CalOutcome) :
    (applyCreateCalendarSync db id cal).payments = db.payments := by
  cases cal <;> rfl

lemma applyUpdateCalendarSync_bookings (db : DB) (id : Nat) (e : Option Nat) (cal : CalOutcome) :
    (applyUpdateCalendarSync db id e cal).bookings = db.bookings := by
  cases e <;> cases cal <;> rfl

lemma applyUpdateCalendarSync_payments (db : DB) (id : Nat) (e : Option Nat) (cal : CalOutcome) :
    (applyUpdateCalendarSync db id e cal).payments = db.payments := by
  cases e <;> cases cal <;> rfl

lemma applyDeleteCalendarSync_bookings (db : DB) (id : Nat) (e : Option Nat) (cal : CalOutcome) :
    (applyDeleteCalendarSync db id e cal).bookings = db.bookings := by
  cases e <;> cases cal <;> rfl

lemma applyDeleteCalendarSync_payments (db : DB) (id : Nat) (e : Option Nat) (cal : CalOutcome) :
    (applyDeleteCalendarSync db id e cal).payments = db.payments := by
  cases e <;> cases cal <;> rfl

/-! ## C1 -/

/-- C1: the conflict SELECT and the INSERT of `router.post` on bookings are
two separate store accesses with no uniqueness constraint between them.
Run sequentially (each operation finishing before the other starts), the
second create at the same timestamp receives the conflict answer and
exactly one non-terminal booking exists; but under the interleaved schedule
check-1, check-2, insert-1, insert-2 both concurrent creates for the same
`startTime` succeed and the store ends with two non-terminal (pending)
bookings at that timestamp, violating the claimed per-timestamp
serialization. -/
theorem booking_create_race_double_books :
    (runTwo [] ⟨1, ⟨2025, 10, 10, 50400000⟩, 60, none⟩ ⟨2, ⟨2025, 10, 10, 50400000⟩, 60, none⟩
        CreatePhase.ready CreatePhase.ready [false, false, true, true]).2 =
      (CreatePhase.succeeded, CreatePhase.conflicted) ∧
    nonTerminalCountAt
      (runTwo [] ⟨1, ⟨2025, 10, 10, 50400000⟩, 60, none⟩ ⟨2, ⟨2025, 10, 10, 50400000⟩, 60, none⟩
        CreatePhase.ready CreatePhase.ready [false, false, true, true]).1
      ⟨2025, 10, 10, 50400000⟩ = 1 ∧
    (runTwo [] ⟨1, ⟨2025, 10, 10, 50400000⟩, 60, none⟩ ⟨2, ⟨2025, 10, 10, 50400000⟩, 60, none⟩
        CreatePhase.ready CreatePhase.ready [false, true, false, true]).2 =
      (CreatePhase.succeeded, CreatePhase.succeeded) ∧
    nonTerminalCountAt
      (runTwo [] ⟨1, ⟨2025, 10, 10, 50400000⟩, 60, none⟩ ⟨2, ⟨2025, 10, 10, 50400000⟩, 60, none⟩
        CreatePhase.ready CreatePhase.ready [false, true, false, true]).1
      ⟨2025, 10, 10, 50400000⟩ = 2 := by
  decide

/-! ## C2 -/

/-- C2: free cancellation is allowed exactly when the hours until the
lesson reach the `cancellation_policy_hours` setting (default 24), with the
boundary inclusive; on the free side the booking is cancelled and no
payment is written, and on the denied side a payment for the full booking
price tagged `late_cancellation_fee` is inserted and the booking is still
cancelled with the fee reason. -/
theorem cancellation_policy_boundary_and_fee
    (db : DB) (s : Settings) (u id : Nat) (now : JSDate) (cal : CalOutcome) (bk : BookingRow)
    (hfind : findBooking db id u = some bk)
    (hany : findBookingAnyUser db id = some bk) :
    ((policyHoursOf s : ℚ) ≤ hoursUntilLesson bk.lessonDate now →
      (deleteBooking db s u id now cal).2 = CancelResult.cancelledFree ∧
      ((deleteBooking db s u id now cal).1).payments = db.payments ∧
      ((deleteBooking db s u id now cal).1).bookings =
        db.bookings.map (fun b => if b.id = id then
          { b with status := BStatus.cancelled, cancelledAt := some now } else b)) ∧
    (hoursUntilLesson bk.lessonDate now < (policyHoursOf s : ℚ) →
      (deleteBooking db s u id now cal).2 = CancelResult.cancelledWithCharge bk.price ∧
      ((deleteBooking db s u id now cal).1).payments =
        db.payments ++ [⟨id, bk.price, "automatic_charge", "pending", "late_cancellation_fee"⟩] ∧
      ((deleteBooking db s u id now cal).1).bookings =
        db.bookings.map (fun b => if b.id = id then
          { b with status := BStatus.cancelled,
                   cancellationReason := some "Late cancellation - automatic charge applied",
                   cancelledAt := some now } else b)) := by
  constructor
  · intro h
    have hb : cancellationAllowed s bk.lessonDate now = true := by
      simp [cancellationAllowed, h]
    simp [deleteBooking, hfind, hb, applyDeleteCalendarSync_bookings,
      applyDeleteCalendarSync_payments, updateBooking]
  · intro h
    have hb : cancellationAllowed s bk.lessonDate now = false := by
      simp [cancellationAllowed]
      exact h
    simp [deleteBooking, hfind, hany, hb, updateBooking]

/-- Witness for C2: a booking exactly 24 hours ahead of now (the boundary)
is cancelled free of charge, and one second inside the window the full
price is charged with the fee tag. -/
theorem cancellation_policy_boundary_and_fee_witness :
    (deleteBooking
        ⟨[⟨1, 7, ⟨2025, 10, 11, 0⟩, 60, 85, BStatus.confirmed, none, 0, none, none, none, none⟩],
          [], [], [], [], [], []⟩
        ⟨none, none, none, none, none, fun _ => none, none⟩
        7 1 ⟨2025, 10, 10, 0⟩ CalOutcome.disabled).2 = CancelResult.cancelledFree ∧
    (deleteBooking
        ⟨[⟨1, 7, ⟨2025, 10, 11, 0⟩, 60, 85, BStatus.confirmed, none, 0, none, none, none, none⟩],
          [], [], [], [], [], []⟩
        ⟨none, none, none, none, none, fun _ => none, none⟩
        7 1 ⟨2025, 10, 10, 1000⟩ CalOutcome.disabled).1.payments =
      [⟨1, 85, "automatic_charge", "pending", "late_cancellation_fee"⟩] := by
  constructor
  · exact ((cancellation_policy_boundary_and_fee _ _ 7 1 ⟨2025, 10, 10, 0⟩ CalOutcome.disabled
      ⟨1, 7, ⟨2025, 10, 11, 0⟩, 60, 85, BStatus.confirmed, none, 0, none, none, none, none⟩
      (by decide) (by decide)).1
      (by
        have h1 : getTime ⟨2025, 10, 11, 0⟩ - getTime ⟨2025, 10, 10, 0⟩ = 86400000 := by decide
        simp only [hoursUntilLesson, policyHoursOf, Option.getD_none, h1]
        norm_num)).1
  · exact ((cancellation_policy_boundary_and_fee _ _ 7 1 ⟨2025, 10, 10, 1000⟩ CalOutcome.disabled
      ⟨1, 7, ⟨2025, 10, 11, 0⟩, 60, 85, BStatus.confirmed, none, 0, none, none, none, none⟩
      (by decide) (by decide)).2
      (by
        have h1 : getTime ⟨2025, 10, 11, 0⟩ - getTime ⟨2025, 10, 10, 1000⟩ = 86399000 := by decide
        simp only [hoursUntilLesson, policyHoursOf, Option.getD_none, h1]
        norm_num)).2.1

/-! ## C10 -/

/-- C10: checkReschedulePolicy reads the proposed date from the `new_date`
body field while the reschedule route itself reads `lesson_date`; a request
whose body carries only `lesson_date` therefore has `new_date` parse to an
Invalid Date, the month comparison is false, and the request is denied with
the cross-month rejection even when the supplied `lesson_date` is in the
same calendar month and year as the original booking. -/
theorem reschedule_body_field_mismatch_denies
    (db : DB) (s : Settings) (u id : Nat) (body : ReqBody) (cal : CalOutcome)
    (bk : BookingRow) (ld : JSDate)
    (hfind : findBooking db id u = some bk)
    (hnd : body.new_date = none)
    (_hld : body.lesson_date = some ld)
    (_hsame : ld.month = bk.lessonDate.month ∧ ld.year = bk.lessonDate.year) :
    putBooking db s u id body cal = (db, RescheduleResult.policyCrossMonth) := by
  simp [putBooking, hfind, hnd, jsSameMonthYear]

/-- Witness for C10: a booking on 2026-01-15 with a request moving it to
2026-01-20 through the `lesson_date` field only is denied with the
cross-month error. -/
theorem reschedule_body_field_mismatch_denies_witness :
    putBooking
      ⟨[⟨1, 3, ⟨2026, 0, 15, 0⟩, 60, 85, BStatus.confirmed, none, 0, none, none, none, none⟩],
        [], [], [], [], [], []⟩
      ⟨none, none, none, none, none, fun _ => none, none⟩
      3 1 ⟨some ⟨2026, 0, 20, 0⟩, none, none, none⟩ CalOutcome.disabled =
      (⟨[⟨1, 3, ⟨2026, 0, 15, 0⟩, 60, 85, BStatus.confirmed, none, 0, none, none, none, none⟩],
        [], [], [], [], [], []⟩, RescheduleResult.policyCrossMonth) := by
  exact reschedule_body_field_mismatch_denies _ _ 3 1 _ CalOutcome.disabled
    ⟨1, 3, ⟨2026, 0, 15, 0⟩, 60, 85, BStatus.confirmed, none, 0, none, none, none, none⟩
    ⟨2026, 0, 20, 0⟩ (by decide) rfl rfl (by decide)

/-! ## C3 -/

/-- C3: a reschedule succeeds only when the applied new date lies in the
same calendar month and year as the original booking and the count of
already-rescheduled bookings of that client in that month is strictly
below `max_reschedules_per_month`; a new date in a different month (for
example the first of the next month after a last-of-month booking) is
rejected regardless of the remaining quota. -/
theorem reschedule_requires_same_month_and_quota
    (db : DB) (s : Settings) (u id : Nat) (body : ReqBody) (cal : CalOutcome) :
    ((putBooking db s u id body cal).2 = RescheduleResult.rescheduled →
      ∃ bk ld, findBooking db id u = some bk ∧ body.lesson_date = some ld ∧
        ld.month = bk.lessonDate.month ∧ ld.year = bk.lessonDate.year ∧
        (rescheduleCountInMonth db u bk.lessonDate : Int) < maxReschedulesOf s) ∧
    (∀ bk ld, findBooking db id u = some bk → body.lesson_date = some ld →
      (ld.month ≠ bk.lessonDate.month ∨ ld.year ≠ bk.lessonDate.year) →
      (putBooking db s u id body cal).2 ≠ RescheduleResult.rescheduled) := by
  have hmain : (putBooking db s u id body cal).2 = RescheduleResult.rescheduled →
      ∃ bk ld, findBooking db id u = some bk ∧ body.lesson_date = some ld ∧
        ld.month = bk.lessonDate.month ∧ ld.year = bk.lessonDate.year ∧
        (rescheduleCountInMonth db u bk.lessonDate : Int) < maxReschedulesOf s := by
    intro h
    rcases body with ⟨bld, bnd, bdur, bnotes⟩
    rcases hfind : findBooking db id u with _ | bk
    · simp [putBooking, hfind] at h
    by_cases h1 : jsSameMonthYear bk.lessonDate bnd
    case neg => simp [putBooking, hfind, h1] at h
    by_cases h2 : maxReschedulesOf s ≤ (rescheduleCountInMonth db u bk.lessonDate : Int)
    case pos => simp [putBooking, hfind, h1, h2] at h
    rcases bld with _ | ld
    · rcases hbl : blackoutHit db (jsOr bnd none) with _ | bl <;>
        simp [putBooking, hfind, h1, h2, hbl] at h
    rcases hbl : blackoutHit db (jsOr bnd (some ld)) with _ | bl
    swap
    · simp [putBooking, hfind, h1, h2, hbl] at h
    by_cases h3 : ld.month ≠ bk.lessonDate.month ∨ ld.year ≠ bk.lessonDate.year
    case pos => simp [putBooking, hfind, h1, h2, hbl, h3] at h
    push_neg at h3
    exact ⟨bk, ld, rfl, rfl, h3.1, h3.2, not_le.mp h2⟩
  refine ⟨hmain, ?_⟩
  intro bk ld hfind hld h3 h
  obtain ⟨bk2, ld2, hfind2, hld2, hm, hy, _⟩ := hmain h
  rw [hfind2] at hfind
  rw [hld2] at hld
  cases hfind
  cases hld
  rcases h3 with h3 | h3
  · exact h3 hm
  · exact h3 hy

/-- Witness for C3: moving a booking from 2026-01-31 (the last day of
January) to 2026-02-01 (the first day of February) is rejected even though
the client has used none of the reschedule quota. -/
theorem reschedule_requires_same_month_and_quota_witness :
    (putBooking
      ⟨[⟨1, 3, ⟨2026, 0, 31, 0⟩, 60, 85, BStatus.confirmed, none, 0, none, none, none, none⟩],
        [], [], [], [], [], []⟩
      ⟨none, none, none, none, none, fun _ => none, none⟩
      3 1 ⟨some ⟨2026, 1, 1, 0⟩, some ⟨2026, 1, 1, 0⟩, none, none⟩ CalOutcome.disabled).2 ≠
      RescheduleResult.rescheduled := by
  exact (reschedule_requires_same_month_and_quota _ _ 3 1 _ CalOutcome.disabled).2
    ⟨1, 3, ⟨2026, 0, 31, 0⟩, 60, 85, BStatus.confirmed, none, 0, none, none, none, none⟩
    ⟨2026, 1, 1, 0⟩ (by decide) rfl (by decide)

/-! ## C4 -/

lemma genCyclesFrom_length (u rb : Nat) (price : ℚ) (lpm : Int) (y m : Int) (endD : JSDate) :
    (genCyclesFrom u rb price lpm y m endD).length =
      (monthIndex endD.year endD.month + 1 - monthIndex y m).toNat := by
  induction y, m, endD using genCyclesFrom.induct u rb price lpm with
  | case1 y m endD hle ih1 ih2 =>
    by_cases hm : m = 11
    · rw [genCyclesFrom, dif_pos hle, if_pos hm]
      have h1 := ih1 hm
      simp only [List.length_cons, monthIndex] at *
      omega
    · rw [genCyclesFrom, dif_pos hle, if_neg hm]
      simp only [List.length_cons, monthIndex] at *
      omega
  | case2 y m endD hgt =>
    rw [genCyclesFrom, dif_neg hgt]
    simp only [List.length_nil, monthIndex] at *
    omega

lemma genCyclesFrom_fields (u rb : Nat) (price : ℚ) (lpm : Int) (y m : Int) (endD : JSDate) :
    ∀ c ∈ genCyclesFrom u rb price lpm y m endD,
      c.lessonsCount = lpm ∧ c.totalAmount = price * lpm ∧
      c.billingDate.day = 1 ∧ c.dueDate.day = 15 ∧
      c.cycleYear = c.billingDate.year ∧ c.cycleMonth = c.billingDate.month + 1 := by
  induction y, m, endD using genCyclesFrom.induct u rb price lpm with
  | case1 y m endD hle ih1 ih2 =>
    by_cases hm : m = 11
    · rw [genCyclesFrom, dif_pos hle, if_pos hm]
      intro c hc
      rcases List.mem_cons.mp hc with hc | hc
      · subst hc; exact ⟨rfl, rfl, rfl, rfl, rfl, rfl⟩
      · exact ih1 hm c hc
    · rw [genCyclesFrom, dif_pos hle, if_neg hm]
      intro c hc
      rcases List.mem_cons.mp hc with hc | hc
      · subst hc; exact ⟨rfl, rfl, rfl, rfl, rfl, rfl⟩
      · exact ih2 c hc
  | case2 y m endD hgt =>
    rw [genCyclesFrom, dif_neg hgt]
    intro c hc
    simp at hc

/-- C4: a commitment whose start month is at most its end month generates
exactly one billing cycle per calendar month from the first of the start
month through the first of the end month inclusive (N months gives N
cycles); every cycle carries `lessons_count` 4 for weekly and 2 for
biweekly, `total_amount` equal to that count times the frozen price, a
billing date on the 1st and a due date on the 15th of its own month. -/
theorem billing_cycles_count_and_amounts (u rb : Nat) (price : ℚ) (f : Freq)
    (startD endD : JSDate)
    (h : monthIndex startD.year startD.month ≤ monthIndex endD.year endD.month) :
    (generateBillingCycles u rb price f startD endD).length =
      (monthIndex endD.year endD.month - monthIndex startD.year startD.month).toNat + 1 ∧
    ∀ c ∈ generateBillingCycles u rb price f startD endD,
      c.lessonsCount = (if f = Freq.weekly then 4 else 2) ∧
      c.totalAmount = price * (((if f = Freq.weekly then 4 else 2) : Int) : ℚ) ∧
      c.billingDate.day = 1 ∧ c.dueDate.day = 15 ∧
      c.cycleYear = c.billingDate.year ∧ c.cycleMonth = c.billingDate.month + 1 := by
  constructor
  · rw [generateBillingCycles, genCyclesFrom_length]
    omega
  · intro c hc
    exact genCyclesFrom_fields u rb price _ startD.year startD.month endD c hc

/-- Witness for C4: the academic-year default span September 2025 through
June 2026 is 10 calendar months and a weekly commitment gets exactly 10
billing cycles. -/
theorem billing_cycles_count_and_amounts_witness :
    (generateBillingCycles 1 1 85 Freq.weekly ⟨2025, 8, 1, 0⟩ ⟨2026, 5, 30, 0⟩).length = 10 := by
  exact ((billing_cycles_count_and_amounts 1 1 85 Freq.weekly ⟨2025, 8, 1, 0⟩ ⟨2026, 5, 30, 0⟩
    (by decide)).1).trans (by decide)

/-! ## C5 -/

/-- Counterexample to C5 as stated: the billing-cycle batch is a loop of
separate autocommitted INSERT statements with no surrounding transaction,
so when the third cycle INSERT throws during a ten-month weekly commitment
the route returns a server error while the commitment row and the first
two billing cycles stay written — some months billed and others not, the
state changed on error. -/
theorem billing_batch_partial_failure_persists :
    (postRecurring ⟨[], [], [], [], [], [], []⟩
        ⟨none, none, none, none, none, (fun d => if d = 60 then some 85 else none), none⟩
        4 ⟨60, 1, "15:00", Freq.weekly, ⟨2025, 8, 1, 0⟩, "regular"⟩ (some 2)).2 =
      RecurringResult.serverError ∧
    ((postRecurring ⟨[], [], [], [], [], [], []⟩
        ⟨none, none, none, none, none, (fun d => if d = 60 then some 85 else none), none⟩
        4 ⟨60, 1, "15:00", Freq.weekly, ⟨2025, 8, 1, 0⟩, "regular"⟩ (some 2)).1).billingCycles.length = 2 ∧
    ((postRecurring ⟨[], [], [], [], [], [], []⟩
        ⟨none, none, none, none, none, (fun d => if d = 60 then some 85 else none), none⟩
        4 ⟨60, 1, "15:00", Freq.weekly, ⟨2025, 8, 1, 0⟩, "regular"⟩ (some 2)).1).recurringBookings.length = 1 := by
  refine ⟨?_, ?_, ?_⟩ <;>
    simp [postRecurring, generateBillingCycles, genCyclesFrom, monthIndex,
      nextRecurringId]

/-- C5 amended: when the `lesson_<duration>_price` settings lookup fails,
the whole creation is rejected before the commitment or any billing cycle
is written; but the multi-month batch is not all-or-nothing: a failure at
the k-th cycle INSERT returns a server error with the commitment row and
exactly the first k cycles left written. -/
theorem recurring_rejection_and_partial_writes
    (db : DB) (s : Settings) (u : Nat) (body : RecurringBody) (failAt : Option Nat) :
    (s.lessonPrice body.duration = none →
      postRecurring db s u body failAt = (db, RecurringResult.invalidDuration)) ∧
    (∀ price k, s.lessonPrice body.duration = some price → failAt = some k →
      k < (generateBillingCycles u (nextRecurringId db) price body.frequency body.start_date
            (s.academicYearEnd.getD ⟨2026, 5, 30, 0⟩)).length →
      (postRecurring db s u body failAt).2 = RecurringResult.serverError ∧
      ((postRecurring db s u body failAt).1).recurringBookings.length =
        db.recurringBookings.length + 1 ∧
      ((postRecurring db s u body failAt).1).billingCycles =
        db.billingCycles ++ (generateBillingCycles u (nextRecurringId db) price body.frequency
          body.start_date (s.academicYearEnd.getD ⟨2026, 5, 30, 0⟩)).take k) := by
  constructor
  · intro hprice
    simp [postRecurring, hprice]
  · intro price k hprice hfail hk
    refine ⟨?_, ?_, ?_⟩ <;> simp [postRecurring, hprice, hfail, hk]

/-- Witness for C5 amended: an unknown 30-minute duration is rejected with
nothing written, and the partial-failure clause instantiated at the third
INSERT of a ten-cycle batch leaves exactly the first two cycles. -/
theorem recurring_rejection_and_partial_writes_witness :
    postRecurring ⟨[], [], [], [], [], [], []⟩
        ⟨none, none, none, none, none, (fun d => if d = 60 then some 85 else none), none⟩
        4 ⟨30, 1, "15:00", Freq.weekly, ⟨2025, 8, 1, 0⟩, "regular"⟩ none =
      (⟨[], [], [], [], [], [], []⟩, RecurringResult.invalidDuration) ∧
    (postRecurring ⟨[], [], [], [], [], [], []⟩
        ⟨none, none, none, none, none, (fun d => if d = 60 then some 85 else none), none⟩
        4 ⟨60, 1, "15:00", Freq.weekly, ⟨2025, 8, 1, 0⟩, "regular"⟩ (some 2)).2 =
      RecurringResult.serverError := by
  constructor
  · exact (recurring_rejection_and_partial_writes _ _ 4 _ none).1 (by decide)
  · exact ((recurring_rejection_and_partial_writes _ _ 4 _ (some 2)).2 85 2 (by decide) rfl
      (by simp [generateBillingCycles, genCyclesFrom, monthIndex, nextRecurringId])).1

/-! ## C7 -/

/-- Projection of a booking row onto its local lifecycle columns, dropping
only the external-calendar event reference. -/
def bookingCore (b : BookingRow) :
    Nat × Nat × JSDate × Int × ℚ × BStatus × Option String × Int ×
      Option JSDate × Option String × Option JSDate :=
  (b.id, b.userId, b.lessonDate, b.duration, b.price, b.status, b.notes,
   b.rescheduleCount, b.originalDate, b.cancellationReason, b.cancelledAt)

lemma applyCreateCalendarSync_core (db : DB) (id : Nat) (cal : CalOutcome) :
    ((applyCreateCalendarSync db id cal).bookings).map bookingCore =
      db.bookings.map bookingCore := by
  cases cal with
  | ok eid =>
    simp only [applyCreateCalendarSync, updateBooking, List.map_map]
    exact List.map_congr_left (fun b _ => by
      by_cases hb : b.id = id <;> simp [bookingCore, hb])
  | disabled => rfl
  | failedNull => rfl
  | threw msg => rfl

/-- Counterexample to C7 as stated: a create request with the non-allowed
duration 90 passes validation (the route only rejects falsy fields and past
timestamps), is priced with the non-45 fallback 85, and is written to the
store as a pending booking. -/
theorem nonallowed_duration_accepted :
    postBooking ⟨[], [], [], [], [], [], []⟩ 5
        ⟨some ⟨2025, 10, 10, 50400000⟩, none, some 90, none⟩ ⟨2025, 9, 1, 0⟩
        CalOutcome.disabled =
      (⟨[⟨1, 5, ⟨2025, 10, 10, 50400000⟩, 90, 85, BStatus.pending, none, 0, none, none, none,
          none⟩], [], [], [], [], [], []⟩, CreateResult.created 1) := by
  decide

/-- C7 amended: booking creation rejects as a validation error only a
missing `lesson_date`, a missing or zero `duration`, or a non-future
timestamp; the allowed-duration check is never performed, so any nonzero
duration on a conflict-free future request is accepted and written with
price 70 when the duration is exactly 45 and the fallback price 85
otherwise. -/
theorem booking_validation_characterization
    (db : DB) (u : Nat) (body : ReqBody) (now : JSDate) (cal : CalOutcome)
    (hbl : blackoutHit db (jsOr body.new_date body.lesson_date) = none) :
    ((body.lesson_date = none ∨ body.duration = none ∨ body.duration = some 0) →
      postBooking db u body now cal = (db, CreateResult.missingFields)) ∧
    (∀ ld dv, body.lesson_date = some ld → body.duration = some dv → dv ≠ 0 →
      getTime now < getTime ld → conflictExists db.bookings ld = false →
      (postBooking db u body now cal).2 = CreateResult.created (nextBookingId db) ∧
      ((postBooking db u body now cal).1).bookings.map bookingCore =
        db.bookings.map bookingCore ++
          [bookingCore ⟨nextBookingId db, u, ld, dv, if dv = 45 then (70 : ℚ) else 85,
            BStatus.pending, body.notes, 0, none, none, none, none⟩]) := by
  rcases body with ⟨bld, bnd, bdur, bnotes⟩
  dsimp only at hbl ⊢
  constructor
  · intro hcase
    rcases hcase with h | h | h
    · subst h; simp [postBooking, hbl]
    · subst h; rcases bld with _ | ld <;> simp [postBooking, hbl]
    · subst h; rcases bld with _ | ld <;> simp [postBooking, hbl]
  · intro ld dv hld hdv hdv0 hnow hconf
    subst hld
    subst hdv
    constructor
    · simp [postBooking, hbl, hdv0, not_le.mpr hnow, hconf]
    · simp [postBooking, hbl, hdv0, not_le.mpr hnow, hconf,
        applyCreateCalendarSync_core, bookingCore]

/-- Witness for C7 amended: on an empty store a future request with the
non-allowed duration 30 is accepted with the fallback price 85. -/
theorem booking_validation_characterization_witness :
    (postBooking ⟨[], [], [], [], [], [], []⟩ 6
        ⟨some ⟨2025, 11, 3, 36000000⟩, none, some 30, none⟩ ⟨2025, 9, 1, 0⟩
        CalOutcome.disabled).2 = CreateResult.created 1 := by
  exact ((booking_validation_characterization ⟨[], [], [], [], [], [], []⟩ 6
      ⟨some ⟨2025, 11, 3, 36000000⟩, none, some 30, none⟩ ⟨2025, 9, 1, 0⟩
      CalOutcome.disabled (by decide)).2 ⟨2025, 11, 3, 36000000⟩ 30 rfl rfl
      (by decide) (by decide) (by decide)).1

/-! ## C8 -/

/-- Projection of the store onto everything except the external-calendar
artifacts (the sync log and the event-id column). -/
def dbCore (db : DB) :
    List (Nat × Nat × JSDate × Int × ℚ × BStatus × Option String × Int ×
      Option JSDate × Option String × Option JSDate) ×
    List PaymentRow × List MakeupRow × List RecurringRow × List CycleRow ×
      List BlackoutRow :=
  (db.bookings.map bookingCore, db.payments, db.makeupLessons, db.recurringBookings,
   db.billingCycles, db.blackoutDates)

lemma applyCreateCalendarSync_dbCore (db : DB) (id : Nat) (cal : CalOutcome) :
    dbCore (applyCreateCalendarSync db id cal) = dbCore db := by
  cases cal with
  | ok eid =>
    unfold dbCore
    rw [applyCreateCalendarSync_core]
    rfl
  | disabled => rfl
  | failedNull => rfl
  | threw msg => rfl

lemma applyUpdateCalendarSync_dbCore (db : DB) (id : Nat) (e : Option Nat) (cal : CalOutcome) :
    dbCore (applyUpdateCalendarSync db id e cal) = dbCore db := by
  cases e <;> cases cal <;> rfl

lemma applyDeleteCalendarSync_dbCore (db : DB) (id : Nat) (e : Option Nat) (cal : CalOutcome) :
    dbCore (applyDeleteCalendarSync db id e cal) = dbCore db := by
  cases e <;> cases cal <;> rfl

/-- C8: for booking creation, reschedule and cancellation alike, the
outcome of the external-calendar call (disabled, success, failure value, or
thrown error and timeout) never changes the response of the local operation
nor any local state outside the sync log and the event-id column: the
booking rows end in the same lifecycle state as when the calendar call
succeeds, and errors are only absorbed into the log. -/
theorem calendar_outcome_does_not_affect_local_state
    (db : DB) (s : Settings) (u id : Nat) (body : ReqBody) (now : JSDate)
    (cal cal2 : CalOutcome) :
    (dbCore (postBooking db u body now cal).1 = dbCore (postBooking db u body now cal2).1 ∧
      (postBooking db u body now cal).2 = (postBooking db u body now cal2).2) ∧
    (dbCore (putBooking db s u id body cal).1 = dbCore (putBooking db s u id body cal2).1 ∧
      (putBooking db s u id body cal).2 = (putBooking db s u id body cal2).2) ∧
    (dbCore (deleteBooking db s u id now cal).1 = dbCore (deleteBooking db s u id now cal2).1 ∧
      (deleteBooking db s u id now cal).2 = (deleteBooking db s u id now cal2).2) := by
  refine ⟨⟨?_, ?_⟩, ⟨?_, ?_⟩, ⟨?_, ?_⟩⟩
  · unfold postBooking
    split
    · rfl
    · split
      · split_ifs <;>
          first
          | rfl
          | rw [applyCreateCalendarSync_dbCore, applyCreateCalendarSync_dbCore]
      · rfl
  · unfold postBooking
    split
    · rfl
    · split
      · split_ifs <;> rfl
      · rfl
  · unfold putBooking
    split
    · rfl
    · split_ifs <;> try rfl
      split
      · rfl
      · split
        · rfl
        · split
          · rfl
          · split_ifs <;>
              first
              | rfl
              | rw [applyUpdateCalendarSync_dbCore, applyUpdateCalendarSync_dbCore]
  · unfold putBooking
    split
    · rfl
    · split_ifs <;> try rfl
      split
      · rfl
      · split
        · rfl
        · split
          · rfl
          · split_ifs <;> rfl
  · unfold deleteBooking
    split
    · rfl
    · split_ifs
      · split
        · rfl
        · rw [applyDeleteCalendarSync_dbCore, applyDeleteCalendarSync_dbCore]
      · split <;> rfl
  · unfold deleteBooking
    split
    · rfl
    · split_ifs
      · split <;> rfl
      · split <;> rfl

/-! ## C9 -/

lemma pendingCount_after_schedule (u mid : Nat) (mdate : Option JSDate) (m : MakeupRow) :
    ∀ l : List MakeupRow, l.filter (fun x => x.id = mid) = [m] →
      m.userId = u → m.status = MStatus.pending →
      ((l.map (fun x => if x.id = mid then
          { x with makeupDate := mdate, status := MStatus.scheduled } else x)).filter
        (fun x => x.userId = u ∧ x.status = MStatus.pending)).length + 1 =
      (l.filter (fun x => x.userId = u ∧ x.status = MStatus.pending)).length := by
  intro l
  induction l with
  | nil => intro h; simp at h
  | cons x t ih =>
    intro hone hu hp
    by_cases hx : x.id = mid
    · have hxm : x = m ∧ t.filter (fun y => y.id = mid) = [] := by
        simpa [List.filter_cons, hx] using hone
      obtain ⟨hxm1, ht⟩ := hxm
      subst hxm1
      have hmap : t.map (fun y => if y.id = mid then
          { y with makeupDate := mdate, status := MStatus.scheduled } else y) = t := by
        have hall : ∀ y ∈ t, (if y.id = mid then
            ({ y with makeupDate := mdate, status := MStatus.scheduled } : MakeupRow) else y) = y := by
          intro y hy
          have hne : ¬ y.id = mid := by
            intro hy2
            have hmem : y ∈ t.filter (fun z => z.id = mid) :=
              List.mem_filter.mpr ⟨hy, by simpa using hy2⟩
            rw [ht] at hmem
            simp at hmem
          simp [hne]
        calc t.map (fun y => if y.id = mid then
                { y with makeupDate := mdate, status := MStatus.scheduled } else y)
            = t.map id := List.map_congr_left hall
          _ = t := List.map_id t
      simp only [List.map_cons, hmap, if_pos hx, List.filter_cons]
      simp [hu, hp]
    · have hone2 : t.filter (fun y => y.id = mid) = [m] := by
        simpa [List.filter_cons, hx] using hone
      have ih2 := ih hone2 hu hp
      by_cases hpx : x.userId = u ∧ x.status = MStatus.pending
      · simp [List.filter_cons, if_neg hx, hpx] at ih2 ⊢
        omega
      · simp [List.filter_cons, if_neg hx, hpx] at ih2 ⊢
        omega

/-- C9: a make-up request is denied by the cap exactly when the client
already holds `max_pending_makeups` (default 2) pending requests: at or
above the cap the policy middleware denies and writes nothing, below the
cap an eligible request is created as a new pending row, and scheduling one
of the pending requests (taking it out of `pending`) lowers the count by
one so that a client previously at the cap succeeds with a new request. -/
theorem makeup_cap_policy (db : DB) (s : Settings) (u : Nat) (obid : Option Nat)
    (reason : String) :
    (maxPendingMakeupsOf s ≤ (pendingMakeupCount db u : Int) →
      postMakeup db s u obid reason = (db, MakeupResult.policyDenied)) ∧
    (∀ bk, findEligibleBooking db obid u = some bk →
      (pendingMakeupCount db u : Int) < maxPendingMakeupsOf s →
      (postMakeup db s u obid reason).2 = MakeupResult.created (nextMakeupId db) ∧
      ((postMakeup db s u obid reason).1).makeupLessons =
        db.makeupLessons ++ [⟨nextMakeupId db, u, bk.id, none, reason, MStatus.pending⟩]) ∧
    (∀ m mdate bk, db.makeupLessons.filter (fun x => x.id = m.id) = [m] →
      m.userId = u → m.status = MStatus.pending →
      findEligibleBooking db obid u = some bk →
      (pendingMakeupCount db u : Int) = maxPendingMakeupsOf s →
      postMakeup db s u obid reason = (db, MakeupResult.policyDenied) ∧
      (postMakeup (scheduleMakeup db m.id mdate) s u obid reason).2 =
        MakeupResult.created (nextMakeupId (scheduleMakeup db m.id mdate))) := by
  refine ⟨?_, ?_, ?_⟩
  · intro h
    simp [postMakeup, h]
  · intro bk hfind hlt
    have hn := not_le.mpr hlt
    constructor <;> simp [postMakeup, hn, hfind]
  · intro m mdate bk hone hu hp hfind hcap
    constructor
    · simp [postMakeup, le_of_eq hcap.symm]
    · have hcount : pendingMakeupCount (scheduleMakeup db m.id mdate) u + 1 =
          pendingMakeupCount db u :=
        pendingCount_after_schedule u m.id mdate m db.makeupLessons hone hu hp
      have hfind2 : findEligibleBooking (scheduleMakeup db m.id mdate) obid u = some bk := hfind
      have hn2 : ¬ (maxPendingMakeupsOf s ≤
          (pendingMakeupCount (scheduleMakeup db m.id mdate) u : Int)) := by
        omega
      simp [postMakeup, hn2, hfind2]

/-- Witness for C9: a client with exactly two pending make-up requests is
denied a third; after one of the two is scheduled, the same request
succeeds. -/
theorem makeup_cap_policy_witness :
    postMakeup
        ⟨[⟨5, 9, ⟨2025, 9, 3, 0⟩, 60, 85, BStatus.confirmed, none, 0, none, none, none, none⟩],
          [], [⟨1, 9, 5, none, "sick", MStatus.pending⟩, ⟨2, 9, 5, none, "travel", MStatus.pending⟩],
          [], [], [], []⟩
        ⟨none, none, none, none, none, fun _ => none, none⟩ 9 (some 5) "flu" =
      (⟨[⟨5, 9, ⟨2025, 9, 3, 0⟩, 60, 85, BStatus.confirmed, none, 0, none, none, none, none⟩],
          [], [⟨1, 9, 5, none, "sick", MStatus.pending⟩, ⟨2, 9, 5, none, "travel", MStatus.pending⟩],
          [], [], [], []⟩, MakeupResult.policyDenied) ∧
    (postMakeup
        (scheduleMakeup
          ⟨[⟨5, 9, ⟨2025, 9, 3, 0⟩, 60, 85, BStatus.confirmed, none, 0, none, none, none, none⟩],
            [], [⟨1, 9, 5, none, "sick", MStatus.pending⟩, ⟨2, 9, 5, none, "travel", MStatus.pending⟩],
            [], [], [], []⟩ 1 none)
        ⟨none, none, none, none, none, fun _ => none, none⟩ 9 (some 5) "flu").2 =
      MakeupResult.created 3 := by
  have h := (makeup_cap_policy
      ⟨[⟨5, 9, ⟨2025, 9, 3, 0⟩, 60, 85, BStatus.confirmed, none, 0, none, none, none, none⟩],
        [], [⟨1, 9, 5, none, "sick", MStatus.pending⟩, ⟨2, 9, 5, none, "travel", MStatus.pending⟩],
        [], [], [], []⟩
      ⟨none, none, none, none, none, fun _ => none, none⟩ 9 (some 5) "flu").2.2
      ⟨1, 9, 5, none, "sick", MStatus.pending⟩ none
      ⟨5, 9, ⟨2025, 9, 3, 0⟩, 60, 85, BStatus.confirmed, none, 0, none, none, none, none⟩
      (by decide) rfl rfl (by decide) (by decide)
  exact ⟨h.1, h.2.trans (by decide)⟩

/-! ## C6 -/

lemma mem_genSlots (current dayEnd dur : Int) (s : Slot) :
    s ∈ genSlots current dayEnd dur ↔
      ∃ k : ℕ, s.start = current + 1800000 * (k : Int) ∧ s.start < dayEnd ∧
        s.stop = s.start + dur * 60000 ∧ s.stop ≤ dayEnd ∧ s.available = true := by
  induction current, dayEnd, dur using genSlots.induct with
  | case1 current dayEnd dur hlt ih =>
    rw [genSlots, dif_pos hlt]
    constructor
    · intro hs
      rcases List.mem_append.mp hs with hs | hs
      · by_cases hkeep : current + dur * 60000 ≤ dayEnd
        · rw [if_pos hkeep] at hs
          simp only [List.mem_singleton] at hs
          subst hs
          exact ⟨0, by simp, hlt, rfl, hkeep, rfl⟩
        · rw [if_neg hkeep] at hs
          simp at hs
      · obtain ⟨k, hk1, hk2, hk3, hk4, hk5⟩ := ih.mp hs
        refine ⟨k + 1, ?_, hk2, hk3, hk4, hk5⟩
        push_cast
        push_cast at hk1
        omega
    · rintro ⟨k, hk1, hk2, hk3, hk4, hk5⟩
      apply List.mem_append.mpr
      cases k with
      | zero =>
        left
        simp only [Nat.cast_zero, mul_zero, add_zero] at hk1
        have hkeep : current + dur * 60000 ≤ dayEnd := by omega
        rw [if_pos hkeep]
        cases s with
        | mk a b c =>
          simp only [List.mem_singleton, Slot.mk.injEq]
          simp only at hk1 hk3 hk5
          exact ⟨hk1, by omega, hk5⟩
      | succ k2 =>
        right
        apply ih.mpr
        refine ⟨k2, ?_, hk2, hk3, hk4, hk5⟩
        push_cast
        push_cast at hk1
        omega
  | case2 current dayEnd dur hge =>
    rw [genSlots, dif_neg hge]
    simp only [List.not_mem_nil, false_iff]
    rintro ⟨k, hk1, hk2, _, _, _⟩
    have hk0 : (0 : Int) ≤ (k : Int) := Int.natCast_nonneg k
    omega

lemma marked_eq_map (l : List Slot) (busy bookings : List (Int × Int)) :
    markBookings (markBusy l busy) bookings =
      l.map (fun sl =>
        { sl with available := sl.available &&
            !(busy.any (fun b => overlaps sl b.1 b.2) ||
              bookings.any (fun b => overlaps sl b.1 b.2)) }) := by
  unfold markBookings markBusy
  rw [List.map_map]
  apply List.map_congr_left
  intro sl _
  cases sl with
  | mk a b c =>
    by_cases hb : busy.any (fun x => overlaps ⟨a, b, c⟩ x.1 x.2)
    · simp [hb]
    · by_cases hk : bookings.any (fun x => overlaps ⟨a, b, c⟩ x.1 x.2)
      · cases c <;> simp [hb, hk]
      · cases c <;> simp [hb, hk]

/-- Counterexample to C6 as stated: the date 2025-11-26 lies inside an
active blackout range (2025-11-24 through 2025-11-29), there are no
bookings and no busy intervals, yet the resolver marks nothing unavailable
and returns all seventeen candidate slots as available: blackout ranges are
simply never consulted by `getAvailableSlots`, so a candidate on a blackout
date is not marked unavailable as the claim requires. -/
theorem availability_ignores_blackouts :
    (blackoutHit
      ⟨[], [], [], [], [],
        [⟨⟨2025, 10, 24, 0⟩, ⟨2025, 10, 29, 0⟩, "Thanksgiving Break", true⟩], []⟩
      (some ⟨2025, 10, 26, 0⟩)).isSome = true ∧
    (markedSlots
      ⟨[], [], [], [], [],
        [⟨⟨2025, 10, 24, 0⟩, ⟨2025, 10, 29, 0⟩, "Thanksgiving Break", true⟩], []⟩
      ⟨none, none, none, none, none, fun _ => none, none⟩ [] ⟨2025, 10, 26, 0⟩ 60).all
      (fun sl => sl.available) = true ∧
    (getAvailableSlots
      ⟨[], [], [], [], [],
        [⟨⟨2025, 10, 24, 0⟩, ⟨2025, 10, 29, 0⟩, "Thanksgiving Break", true⟩], []⟩
      ⟨none, none, none, none, none, fun _ => none, none⟩ [] ⟨2025, 10, 26, 0⟩ 60).length = 17 := by
  refine ⟨by decide, ?_, ?_⟩ <;>
    simp [markedSlots, getAvailableSlots, markBusy, markBookings, bookingIntervalsOn,
      genSlots, dayStartMs, dayEndMs, getTime, daysFromCivil, overlaps]

/-- C6 amended: the resolver generates candidate start times at a fixed
30-minute step from the business-hours start, keeps only candidates whose
end `start + duration` does not cross the business-hours end (boundary
slots are excluded entirely, never emitted), marks a candidate unavailable
exactly when it strictly overlaps (`slotStart < otherEnd` and
`otherStart < slotEnd`) an externally reported busy interval or a
confirmed or pending internal booking of the day, and returns the marked
list filtered to the available slots; blackout ranges are not consulted
here (they are enforced separately by the booking-time blackout check). -/
theorem available_slots_characterization (db : DB) (s : Settings) (busy : List (Int × Int))
    (date : JSDate) (duration : Int) :
    (∀ sl ∈ markedSlots db s busy date duration,
      (∃ k : ℕ, sl.start = dayStartMs s date + 1800000 * (k : Int)) ∧
      sl.start < dayEndMs s date ∧
      sl.stop = sl.start + duration * 60000 ∧ sl.stop ≤ dayEndMs s date ∧
      (sl.available = false ↔
        (∃ b ∈ busy, sl.start < b.2 ∧ b.1 < sl.stop) ∨
        (∃ b ∈ bookingIntervalsOn db date, sl.start < b.2 ∧ b.1 < sl.stop))) ∧
    (∀ k : ℕ, dayStartMs s date + 1800000 * (k : Int) < dayEndMs s date →
      dayStartMs s date + 1800000 * (k : Int) + duration * 60000 ≤ dayEndMs s date →
      ∃ sl ∈ markedSlots db s busy date duration,
        sl.start = dayStartMs s date + 1800000 * (k : Int)) ∧
    getAvailableSlots db s busy date duration =
      (markedSlots db s busy date duration).filter (fun sl => sl.available) := by
  refine ⟨?_, ?_, rfl⟩
  · intro sl hsl
    rw [markedSlots, marked_eq_map] at hsl
    obtain ⟨sl0, hsl0, heq⟩ := List.mem_map.mp hsl
    obtain ⟨k, hk1, hk2, hk3, hk4, hk5⟩ := (mem_genSlots _ _ _ sl0).mp hsl0
    subst heq
    refine ⟨⟨k, hk1⟩, hk2, hk3, hk4, ?_⟩
    simp [hk5, overlaps, List.any_eq_true, decide_eq_true_eq]
    constructor
    · intro h
      by_cases hA : ∃ a b, (a, b) ∈ busy ∧ sl0.start < b ∧ a < sl0.stop
      · exact Or.inl hA
      · refine Or.inr (h ?_)
        push_neg at hA
        exact hA
    · rintro (hA | hB)
      · intro hall
        obtain ⟨a, b, hab, h1, h2⟩ := hA
        exact absurd h2 (not_lt.mpr (hall a b hab h1))
      · intro _
        exact hB
  · intro k h1 h2
    rw [markedSlots, marked_eq_map]
    have hmem : (⟨dayStartMs s date + 1800000 * (k : Int),
        dayStartMs s date + 1800000 * (k : Int) + duration * 60000, true⟩ : Slot) ∈
        genSlots (dayStartMs s date) (dayEndMs s date) duration :=
      (mem_genSlots _ _ _ _).mpr ⟨k, rfl, h1, rfl, h2, rfl⟩
    exact ⟨_, List.mem_map_of_mem _ hmem, rfl⟩

/-- Witness for C6 amended: on an empty store with default business hours
the first candidate of 2025-12-01 for a 60-minute lesson starts exactly at
the business-hours start. -/
theorem available_slots_characterization_witness :
    ∃ sl ∈ markedSlots ⟨[], [], [], [], [], [], []⟩
        ⟨none, none, none, none, none, fun _ => none, none⟩ [] ⟨2025, 11, 1, 0⟩ 60,
      sl.start = dayStartMs ⟨none, none, none, none, none, fun _ => none, none⟩ ⟨2025, 11, 1, 0⟩ +
        1800000 * ((0 : ℕ) : Int) := by
  exact (available_slots_characterization ⟨[], [], [], [], [], [], []⟩
      ⟨none, none, none, none, none, fun _ => none, none⟩ [] ⟨2025, 11, 1, 0⟩ 60).2.1 0
      (by decide) (by decide)

end PVS
